import Mathlib

/-!
Verification of the absorbance MCP server (`absorbance96_mcp.py`).

Shallow embedding conventions:
* Python floats are modelled as exact rationals (`ℚ`); decimal literals in the
  input strings parse to their exact rational values.  `statistics.stdev`
  introduces a square root, modelled with `Real.sqrt` (values in `ℝ`).
* Python exceptions are modelled with `Except PyExn`; a `try/except` boundary
  is a `match` on the `Except` value.  Falling off the end of a Python
  function body is modelled as `Option.none` (Python `None`).
* The vendor SDK (`byonoy_devices`) is an external collaborator, modelled as a
  record of pure response functions (`SDK`); one admissible behaviour of the
  collaborator is enough to exercise each code path.
* The module-level global `byonoy_device_handle` has its initialisation
  commented out in the source (`#byonoy_device_handle = None`), so before the
  first successful connect the name is *unbound*; reading it raises
  `NameError`.  `GState` models unbound vs. bound-to-a-handle.
* `float()` is modelled for sign/digits/decimal-point/exponent literals; the
  exotic literal forms (`inf`, `nan`, digit underscores) are outside the
  model and all claims below avoid them.
-/

/-- Python exceptions that `calculate_assay_metrics` / the tools can raise. -/
inductive PyExn where
  | valueError (msg : String)
  | indexError
  | statisticsError
  | zeroDivisionError
  deriving DecidableEq, Repr

/-- Model of `str(e)` for the exceptions above, as CPython prints them. -/
def pyMsg : PyExn → String
  | .valueError m => m
  | .indexError => "list index out of range"
  | .statisticsError => "mean requires at least one data point"
  | .zeroDivisionError => "float division by zero"

/-- Python `statistics.mean` on a nonempty list (`sum/len`); the empty case is
guarded by explicit `statisticsError` checks at every use site, mirroring the
exception `statistics.mean([])` would raise. -/
def meanQ (l : List ℚ) : ℚ := l.sum / (l.length : ℚ)

/-- Numeric value of a digit string (big-endian fold, as positional decimal). -/
def digitsVal (l : List Char) : ℕ :=
  l.foldl (fun acc c => acc * 10 + (c.toNat - 48)) 0

/-- Strip one optional sign; returns (is-negative, remaining characters). -/
def splitSign : List Char → Bool × List Char
  | '-' :: t => (true, t)
  | '+' :: t => (false, t)
  | l => (false, l)

/-- Parse an optional exponent suffix (`e`/`E`, optional sign, digits) applied
to `base`; empty input returns `base` unchanged, anything else is malformed. -/
def parseExp (base : ℚ) : List Char → Option ℚ
  | [] => some base
  | c :: t =>
    if c = 'e' ∨ c = 'E' then
      let (neg, t2) := splitSign t
      let d := t2.takeWhile Char.isDigit
      let r := t2.dropWhile Char.isDigit
      if d.isEmpty ∨ ¬ r.isEmpty then none
      else some (if neg then base / (10 : ℚ) ^ digitsVal d
                 else base * (10 : ℚ) ^ digitsVal d)
    else none

/-- Parse an unsigned float literal: `D+ ('.' D*)? exp?` or `D* '.' D+ exp?`. -/
def parseUnsigned (l : List Char) : Option ℚ :=
  let ip := l.takeWhile Char.isDigit
  let rest := l.dropWhile Char.isDigit
  match rest with
  | '.' :: rest2 =>
      let fp := rest2.takeWhile Char.isDigit
      let rest3 := rest2.dropWhile Char.isDigit
      if ip.isEmpty ∧ fp.isEmpty then none
      else parseExp ((digitsVal ip : ℚ) + (digitsVal fp : ℚ) / (10 : ℚ) ^ fp.length) rest3
  | _ => if ip.isEmpty then none else parseExp (digitsVal ip : ℚ) rest

/-- Python `str.strip()`: drop leading and trailing whitespace. -/
def trimCh (l : List Char) : List Char :=
  (((l.dropWhile Char.isWhitespace).reverse).dropWhile Char.isWhitespace).reverse

/-- Python `str.split(',')`: split at every comma; no comma gives a single
token, `""` gives `[""]`, adjacent commas give empty tokens. -/
def splitCommas : List Char → List (List Char)
  | [] => [[]]
  | ',' :: t => [] :: splitCommas t
  | c :: t =>
    match splitCommas t with
    | [] => [[c]]
    | h :: r => (c :: h) :: r

/-- Model of Python `float(tok)` on a token (given as its character list):
leading and trailing whitespace ignored, optional sign, decimal literal with
optional fraction and exponent.  `none` models `ValueError`. -/
def parseFloatQ (tok : List Char) : Option ℚ :=
  let (neg, t) := splitSign (trimCh tok)
  (parseUnsigned t).map (fun q => if neg then -q else q)

/-- Model of `[float(x.strip()) for x in toks]`: left-to-right, first bad token raises
`ValueError` with CPython's message (showing the stripped token). -/
def parseTokens : List (List Char) → Except PyExn (List ℚ)
  | [] => .ok []
  | t :: ts =>
    match parseFloatQ t with
    | none => .error (.valueError
        ("could not convert string to float: \x27" ++ String.mk (trimCh t) ++ "\x27"))
    | some q =>
      match parseTokens ts with
      | .error e => .error e
      | .ok rest => .ok (q :: rest)

/-- Model of `[float(x.strip()) for x in s.split(',')]` (lines 104-105 of the source). -/
def parseFloatList (s : String) : Except PyExn (List ℚ) :=
  parseTokens (splitCommas s.data)

/-- Source `n = len(abs_curve)` where `abs_curve = abs_list[:6]` (lines 108, 111). -/
def curveN (a : List ℚ) : ℕ := (a.take 6).length

/-- Source `numerator = sum((conc_list[i] - mean_conc) * (abs_curve[i] - mean_abs)
for i in range(n))` (line 115).  `mean_conc` is the mean of the **whole**
concentration list, `mean_abs` the mean of the 6-element curve slice, exactly
as in lines 112-113.  The `getD` default is unreachable whenever
`n ≤ c.length`, which `calcCore` checks first (the Python `IndexError`). -/
def rNum (a c : List ℚ) : ℚ :=
  ((List.range (curveN a)).map
    (fun i => (c.getD i 0 - meanQ c) * ((a.take 6).getD i 0 - meanQ (a.take 6)))).sum

/-- Source `denom_conc = sum((conc_list[i] - mean_conc) ** 2 for i in range(n))`
(line 116). -/
def rDenC (a c : List ℚ) : ℚ :=
  ((List.range (curveN a)).map (fun i => (c.getD i 0 - meanQ c) ^ 2)).sum

/-- Source `denom_abs = sum((abs_curve[i] - mean_abs) ** 2 for i in range(n))`
(line 117). -/
def rDenA (a : List ℚ) : ℚ :=
  ((List.range (curveN a)).map
    (fun i => ((a.take 6).getD i 0 - meanQ (a.take 6)) ^ 2)).sum

/-- Source `r_squared = (numerator ** 2) / (denom_conc * denom_abs)
if denom_conc * denom_abs > 0 else 0` (line 119). -/
def rSquared (a c : List ℚ) : ℚ :=
  if rDenC a c * rDenA a > 0 then (rNum a c) ^ 2 / (rDenC a c * rDenA a) else 0

/-- The complete replicate groups of the CV loop (lines 123-125):
`for i in range(0, min(len(abs_list), 18), 3): replicate_group =
abs_list[i:i+3]; if len(replicate_group) == 3: ...`. -/
def cvGroups (l : List ℚ) : List (List ℚ) :=
  ((List.range ((min l.length 18 + 2) / 3)).map
    (fun k => (l.drop (3 * k)).take 3)).filter (fun g => g.length == 3)

/-- Sample variance with Bessel's correction, the square of
`statistics.stdev` (denominator `n - 1`; every group here has `n = 3`). -/
def sampleVarQ (g : List ℚ) : ℚ :=
  ((g.map (fun x => (x - meanQ g) ^ 2)).sum) / ((g.length : ℚ) - 1)

/-- Value of `statistics.stdev(replicate_group)` as a real number. -/
noncomputable def stdevR (g : List ℚ) : ℝ := Real.sqrt (sampleVarQ g)

/-- Source `cv = (statistics.stdev(g) / statistics.mean(g)) * 100` (line 126),
assuming `mean(g) ≠ 0` (the zero case raises, handled in `cvList`). -/
noncomputable def cvPercent (g : List ℚ) : ℝ :=
  stdevR g / (meanQ g : ℝ) * 100

/-- The CV loop body over the complete groups: the first group with zero mean
raises `ZeroDivisionError` (`float division by zero`), otherwise the per-group
CV percentages are collected in order. -/
noncomputable def cvList : List (List ℚ) → Except PyExn (List ℝ)
  | [] => .ok []
  | g :: gs =>
    if meanQ g = 0 then .error .zeroDivisionError
    else
      match cvList gs with
      | .error e => .error e
      | .ok rest => .ok (cvPercent g :: rest)

/-- Source `avg_cv = statistics.mean(cv_values) if cv_values else 0` (line 129). -/
noncomputable def avgCvOf (cvs : List ℝ) : ℝ :=
  if cvs.isEmpty then 0 else cvs.sum / (cvs.length : ℝ)

/-- Body of `calculate_assay_metrics` after parsing (lines 107-129), with the
exception-raising points made explicit in source order:
`statistics.mean(conc_list)` raises on an empty list (line 112), then
`statistics.mean(abs_curve)` (line 113), then `conc_list[i]` raises
`IndexError` when the concentration list is shorter than the curve
(line 115), then the CV loop may raise `ZeroDivisionError` (line 126).
Returns the pair (`r_squared`, `avg_cv`) of line 119 and line 129. -/
noncomputable def calcCore (a c : List ℚ) : Except PyExn (ℚ × ℝ) :=
  if c.length = 0 then .error .statisticsError
  else if (a.take 6).length = 0 then .error .statisticsError
  else if c.length < curveN a then .error .indexError
  else
    match cvList (cvGroups a) with
    | .error e => .error e
    | .ok cvs => .ok (rSquared a c, avgCvOf cvs)

/-- Round to the nearest integer, ties to even — CPython's rounding for
fixed-point `format`. -/
noncomputable def roundHalfEven (x : ℝ) : ℤ :=
  let f := ⌊x⌋
  if x - f < 1 / 2 then f
  else if x - f > 1 / 2 then f + 1
  else if Even f then f else f + 1

/-- Python `format(x, '.<nd>f')`: fixed-point with `nd` digits after the
point. -/
noncomputable def formatFixed (nd : ℕ) (x : ℝ) : String :=
  let m := roundHalfEven (x * (10 : ℝ) ^ nd)
  let digs0 := toString m.natAbs
  let digs := if digs0.length ≤ nd
    then String.mk (List.replicate (nd + 1 - digs0.length) '0') ++ digs0
    else digs0
  (if m < 0 then "-" else "") ++ digs.take (digs.length - nd) ++
    (if nd = 0 then "" else "." ++ digs.drop (digs.length - nd))

/-- Source `f"R²: {r_squared:.4f}, Average CV: {avg_cv:.2f}%"` (line 131). -/
noncomputable def successMsg (r : ℚ) (cv : ℝ) : String :=
  "R²: " ++ formatFixed 4 (r : ℝ) ++ ", Average CV: " ++ formatFixed 2 cv ++ "%"

/-- The `calculate_assay_metrics` tool (lines 100-133): parse both
comma-separated lists, run the metrics body, format the result; any raised
exception is caught by the `except` clause and rendered as
`"Error calculating metrics: " + str(e)`. -/
noncomputable def calculate_assay_metrics
    (absorbance_values : String)
    (concentrations : String := "0,10,20,50,100,200") : String :=
  match parseFloatList absorbance_values with
  | .error e => "Error calculating metrics: " ++ pyMsg e
  | .ok al =>
    match parseFloatList concentrations with
    | .error e => "Error calculating metrics: " ++ pyMsg e
    | .ok cl =>
      match calcCore al cl with
      | .error e => "Error calculating metrics: " ++ pyMsg e
      | .ok (r, cv) => successMsg r cv

/-- The vendor SDK (`byonoy_devices`) as a record of response functions.
Error codes are naturals with `NO_ERROR = 0`; slot states are naturals with
`EMPTY = 0`; handles and devices are naturals; a measurement config is
reduced to its `sample_wavelength` field. -/
structure SDK where
  available_devices_count : ℕ
  available_devices : List ℕ
  open_device : ℕ → ℕ × ℕ
  device_slot_status_supported : ℕ → Bool
  get_device_slot_status : ℕ → ℕ × ℕ
  abs96_available_wavelengths_supported : ℕ → Bool
  abs96_get_available_wavelengths : ℕ → ℕ × List Int
  abs96_initialize_single_measurement : ℕ → Int → ℕ
  abs96_single_measure : ℕ → Int → ℕ × List ℚ

/-- State of the module-level name `byonoy_device_handle`.  Its module-level
initialisation is commented out in the source (line 16:
`#byonoy_device_handle = None`), so until a successful connect assigns it the
name is unbound and reading it raises `NameError`. -/
inductive GState where
  | unbound
  | bound (h : ℕ)
  deriving DecidableEq, Repr

/-- Model of `connect_byonoy_reader` (lines 19-36): returns the message and the new
global state.  The `devices[0]` subscript raises `IndexError` (caught by the
`except` clause) when the device list is empty despite a nonzero count. -/
def connect_byonoy_reader (sdk : SDK) (g : GState) : String × GState :=
  if sdk.available_devices_count = 0 then ("No Byonoy devices found", g)
  else
    match sdk.available_devices with
    | [] => ("Error: list index out of range", g)
    | d :: _ =>
      let rc := (sdk.open_device d).1
      let h := (sdk.open_device d).2
      if rc = 0 then
        ("Connected to Byonoy device successfully. Handle: " ++ toString h, GState.bound h)
      else ("Failed to connect: " ++ toString rc, g)

/-- Rest of the `step == "initialize"` branch after the slot check
(lines 60-72).  When `abs96_available_wavelengths_supported` is false the
branch body is skipped and control falls to the end of the function:
Python returns `None`, modelled as `none`. -/
def readInitRest (sdk : SDK) (h : ℕ) (wavelength : Int) : Option String :=
  if sdk.abs96_available_wavelengths_supported h then
    let wls := (sdk.abs96_get_available_wavelengths h).2
    if wavelength ∉ wls then
      some ("Wavelength " ++ toString wavelength ++ " not available. Available: " ++ toString wls)
    else
      let rc := sdk.abs96_initialize_single_measurement h wavelength
      if rc = 0 then
        some ("✅ Measurement initialized at " ++ toString wavelength ++
          "nm. INSERT PLATE NOW, then run with step=\x27measure\x27")
      else some ("❌ Initialize failed: " ++ toString rc)
  else none

/-- Rest of the `step == "measure"` branch after the slot check
(lines 82-89). -/
def readMeasureRest (sdk : SDK) (h : ℕ) (wavelength : Int) : Option String :=
  let rc := (sdk.abs96_single_measure h wavelength).1
  let values := (sdk.abs96_single_measure h wavelength).2
  if rc = 0 then
    some ("📊 Absorbance values at " ++ toString wavelength ++ "nm: " ++ toString values)
  else some ("❌ Measurement failed: " ++ toString rc ++ ". Check plate positioning.")

/-- Model of `read_tartrazine_absorbance` (lines 45-95).  Reading the unbound global
raises `NameError`, caught by the function's own `except` clause (line 94),
so the `byonoy_device_handle is None` check of line 49 never fires in a
fresh process.  A `some s` result is Python returning the string `s`; `none`
is Python falling off the end of the body and returning `None`. -/
def read_tartrazine_absorbance (sdk : SDK) (g : GState)
    (wavelength : Int := 450) (step : String := "initialize") : Option String :=
  match g with
  | .unbound => some "Error: name \x27byonoy_device_handle\x27 is not defined"
  | .bound h =>
    if step == "initialize" then
      if sdk.device_slot_status_supported h then
        let rc := (sdk.get_device_slot_status h).1
        let slot := (sdk.get_device_slot_status h).2
        if rc = 0 ∧ slot ≠ 0 then
          some ("❌ Remove plate first - slot status: " ++ toString slot)
        else readInitRest sdk h wavelength
      else readInitRest sdk h wavelength
    else if step == "measure" then
      if sdk.device_slot_status_supported h then
        let rc := (sdk.get_device_slot_status h).1
        let slot := (sdk.get_device_slot_status h).2
        if rc = 0 ∧ slot = 0 then some "❌ No plate detected. Please insert plate first."
        else readMeasureRest sdk h wavelength
      else readMeasureRest sdk h wavelength
    else some "Invalid step. Use step=\x27initialize\x27 or step=\x27measure\x27"

/-- Spec-side description of the replicate grouping: consecutive
non-overlapping triples from the front of the list, a trailing partial group
discarded. -/
def chunks3 : List ℚ → List (List ℚ)
  | a :: b :: c :: t => [a, b, c] :: chunks3 t
  | _ => []

/-- Predicate `∀ x ∈ l, ∀ y ∈ l, x = y`: the list is constant (zero variance). -/
def IsConstL (l : List ℚ) : Prop := ∀ x ∈ l, ∀ y ∈ l, x = y

instance instDecidableIsConstL (l : List ℚ) : Decidable (IsConstL l) :=
  inferInstanceAs (Decidable (∀ x ∈ l, ∀ y ∈ l, x = y))

/-! ### Bridging lemmas -/

theorem sum_map_range (n : ℕ) (f : ℕ → ℚ) :
    ((List.range n).map f).sum = ∑ i ∈ Finset.range n, f i := by
  induction n with
  | zero => simp
  | succ n ih =>
    rw [List.range_succ, List.map_append, List.sum_append, Finset.sum_range_succ, ih]
    simp

theorem sum_getD_range (l : List ℚ) :
    ∑ i ∈ Finset.range l.length, l.getD i 0 = l.sum := by
  induction l with
  | nil => simp
  | cons x t ih =>
    rw [List.length_cons, Finset.sum_range_succ']
    simp only [List.getD_cons_succ, List.getD_cons_zero, List.sum_cons, ih]
    ring

theorem getD_take_eq (l : List ℚ) (i n : ℕ) (h : i < n) :
    (l.take n).getD i 0 = l.getD i 0 := by
  rw [List.getD_eq_getElem?_getD, List.getD_eq_getElem?_getD, List.getElem?_take, if_pos h]

theorem meanQ_const (l : List ℚ) (v : ℚ) (hne : l ≠ []) (h : ∀ x ∈ l, x = v) :
    meanQ l = v := by
  have hlen : (l.length : ℚ) ≠ 0 := by
    have := List.length_pos.mpr hne
    positivity
  unfold meanQ
  rw [List.sum_eq_card_nsmul l v h, nsmul_eq_mul, mul_comm, mul_div_assoc, div_self hlen,
    mul_one]

theorem rNum_eq (a c : List ℚ) :
    rNum a c = ∑ i ∈ Finset.range (curveN a),
      (c.getD i 0 - meanQ c) * ((a.take 6).getD i 0 - meanQ (a.take 6)) :=
  sum_map_range _ _

theorem rDenC_eq (a c : List ℚ) :
    rDenC a c = ∑ i ∈ Finset.range (curveN a), (c.getD i 0 - meanQ c) ^ 2 :=
  sum_map_range _ _

theorem rDenA_eq (a : List ℚ) :
    rDenA a = ∑ i ∈ Finset.range (curveN a),
      ((a.take 6).getD i 0 - meanQ (a.take 6)) ^ 2 :=
  sum_map_range _ _

theorem sum_getD_range_of_length (l : List ℚ) (n : ℕ) (h : l.length = n) :
    ∑ i ∈ Finset.range n, l.getD i 0 = l.sum := by
  subst h
  exact sum_getD_range l

theorem curve_dev_sum_zero (a : List ℚ) (hla : (a.take 6).length = 6) :
    ∑ i ∈ Finset.range 6, ((a.take 6).getD i 0 - meanQ (a.take 6)) = 0 := by
  rw [Finset.sum_sub_distrib, sum_getD_range_of_length (a.take 6) 6 hla, Finset.sum_const,
    Finset.card_range, nsmul_eq_mul]
  unfold meanQ
  rw [hla]
  push_cast
  field_simp

/-- C5, claim as stated: a constant 6-entry concentration curve or a constant
6-entry absorbance curve forces `r_squared = 0` (no division by zero: the
`> 0` guard takes the `else` branch or the numerator vanishes). -/
theorem assay_zero_variance_rsq_zero (a c : List ℚ) (h6a : 6 ≤ a.length)
    (h6c : 6 ≤ c.length) (hconst : IsConstL (c.take 6) ∨ IsConstL (a.take 6)) :
    rSquared a c = 0 := by
  have hla : (a.take 6).length = 6 := by rw [List.length_take]; omega
  have hn : curveN a = 6 := hla
  rcases hconst with hc | ha
  · -- constant concentration curve: the covariance numerator vanishes
    have hlc : (c.take 6).length = 6 := by rw [List.length_take]; omega
    have h0mem : (c.take 6).getD 0 0 ∈ c.take 6 := by
      rw [List.getD_eq_getElem _ _ (by omega : 0 < (c.take 6).length)]
      exact List.getElem_mem _
    have hmem : ∀ i < 6, c.getD i 0 = (c.take 6).getD 0 0 := by
      intro i hi
      rw [← getD_take_eq c i 6 hi]
      refine hc _ ?_ _ h0mem
      rw [List.getD_eq_getElem _ _ (by omega : i < (c.take 6).length)]
      exact List.getElem_mem _
    have hnum : rNum a c = 0 := by
      rw [rNum_eq, hn,
        Finset.sum_congr rfl
          (fun i hi => by rw [hmem i (Finset.mem_range.mp hi)]),
        ← Finset.mul_sum, curve_dev_sum_zero a hla, mul_zero]
    rw [rSquared, hnum]
    split <;> simp
  · -- constant absorbance curve: `denom_abs = 0`, the guard fails
    have h0mem : (a.take 6).getD 0 0 ∈ a.take 6 := by
      rw [List.getD_eq_getElem _ _ (by omega : 0 < (a.take 6).length)]
      exact List.getElem_mem _
    have hma : meanQ (a.take 6) = (a.take 6).getD 0 0 := by
      refine meanQ_const _ _ (by rw [← List.length_pos, hla]; omega) ?_
      intro x hx
      exact ha _ hx _ h0mem
    have hda : rDenA a = 0 := by
      rw [rDenA_eq, hn]
      apply Finset.sum_eq_zero
      intro i hi
      have hi6 : i < 6 := Finset.mem_range.mp hi
      have : (a.take 6).getD i 0 = (a.take 6).getD 0 0 := by
        refine ha _ ?_ _ h0mem
        rw [List.getD_eq_getElem _ _ (by omega : i < (a.take 6).length)]
        exact List.getElem_mem _
      rw [this, hma]
      ring
    rw [rSquared, hda, mul_zero]
    simp

/-- C5 witness: a constant absorbance curve on a concrete input. -/
theorem assay_zero_variance_rsq_zero_witness :
    6 ≤ ([2, 2, 2, 2, 2, 2] : List ℚ).length ∧
    6 ≤ ([0, 10, 20, 50, 100, 200] : List ℚ).length ∧
    (IsConstL (([0, 10, 20, 50, 100, 200] : List ℚ).take 6) ∨
      IsConstL (([2, 2, 2, 2, 2, 2] : List ℚ).take 6)) ∧
    rSquared [2, 2, 2, 2, 2, 2] [0, 10, 20, 50, 100, 200] = 0 :=
  ⟨by decide, by decide, Or.inr (by decide),
    assay_zero_variance_rsq_zero _ _ (by decide) (by decide) (Or.inr (by decide))⟩

/-- C7: for inputs with at least 6 paired points and non-constant (non-zero
variance) curve series, the returned `r_squared` lies in `[0, 1]` (exact
rational arithmetic).  The bound is the Cauchy-Schwarz inequality; the guard
of line 119 covers the degenerate branch. -/
theorem assay_rsq_in_unit_interval (a c : List ℚ) (h6a : 6 ≤ a.length)
    (h6c : 6 ≤ c.length) (hvc : ¬ IsConstL (c.take 6))
    (hva : ¬ IsConstL (a.take 6)) :
    0 ≤ rSquared a c ∧ rSquared a c ≤ 1 := by
  unfold rSquared
  split
  case isTrue h =>
    refine ⟨div_nonneg (sq_nonneg _) h.le, ?_⟩
    rw [div_le_one h]
    calc rNum a c ^ 2
        = (∑ i ∈ Finset.range (curveN a),
            (c.getD i 0 - meanQ c) * ((a.take 6).getD i 0 - meanQ (a.take 6))) ^ 2 := by
          rw [rNum_eq]
      _ ≤ (∑ i ∈ Finset.range (curveN a), (c.getD i 0 - meanQ c) ^ 2) *
            ∑ i ∈ Finset.range (curveN a),
              ((a.take 6).getD i 0 - meanQ (a.take 6)) ^ 2 :=
          Finset.sum_mul_sq_le_sq_mul_sq _ _ _
      _ = rDenC a c * rDenA a := by rw [rDenC_eq, rDenA_eq]
  case isFalse h => norm_num

/-- C7 witness: concrete non-degenerate input. -/
theorem assay_rsq_in_unit_interval_witness :
    6 ≤ ([1, 3, 2, 7, 5, 4] : List ℚ).length ∧
    6 ≤ ([0, 10, 20, 50, 100, 200] : List ℚ).length ∧
    ¬ IsConstL (([0, 10, 20, 50, 100, 200] : List ℚ).take 6) ∧
    ¬ IsConstL (([1, 3, 2, 7, 5, 4] : List ℚ).take 6) ∧
    (0 ≤ rSquared [1, 3, 2, 7, 5, 4] [0, 10, 20, 50, 100, 200] ∧
      rSquared [1, 3, 2, 7, 5, 4] [0, 10, 20, 50, 100, 200] ≤ 1) :=
  ⟨by decide, by decide, by decide, by decide,
    assay_rsq_in_unit_interval _ _ (by decide) (by decide) (by decide) (by decide)⟩

/-- C1 (amended): the returned R² depends on the concentration list only
through its first 6 entries **and the mean of the whole list** — `mean_conc`
is `statistics.mean(conc_list)` over the full list (line 112), not over the
paired 6-entry curve. -/
theorem rsq_conc_beyond_six_only_via_mean (a c c' : List ℚ)
    (ht : c.take 6 = c'.take 6) (hm : meanQ c = meanQ c') :
    rSquared a c = rSquared a c' := by
  have hgd : ∀ i < 6, c.getD i 0 = c'.getD i 0 := by
    intro i hi
    rw [← getD_take_eq c i 6 hi, ← getD_take_eq c' i 6 hi, ht]
  have hcn : curveN a ≤ 6 := by
    unfold curveN
    rw [List.length_take]
    omega
  have hnum : rNum a c = rNum a c' := by
    rw [rNum_eq, rNum_eq, hm]
    refine Finset.sum_congr rfl (fun i hi => ?_)
    rw [hgd i (lt_of_lt_of_le (Finset.mem_range.mp hi) hcn)]
  have hden : rDenC a c = rDenC a c' := by
    rw [rDenC_eq, rDenC_eq, hm]
    refine Finset.sum_congr rfl (fun i hi => ?_)
    rw [hgd i (lt_of_lt_of_le (Finset.mem_range.mp hi) hcn)]
  unfold rSquared
  rw [hnum, hden]

/-- C1 counterexample: two concentration inputs agreeing on their first 6
entries (a 7th entry added) give different R² for the same absorbances, so
entries beyond the sixth do affect the result. -/
theorem rsq_conc_beyond_six_counterexample :
    ([0, 10, 20, 50, 100, 200, 10000] : List ℚ).take 6 =
      ([0, 10, 20, 50, 100, 200] : List ℚ).take 6 ∧
    rSquared [1/10, 1/5, 3/10, 2/5, 1/2, 3/5] [0, 10, 20, 50, 100, 200] ≠
      rSquared [1/10, 1/5, 3/10, 2/5, 1/2, 3/5] [0, 10, 20, 50, 100, 200, 10000] := by
  constructor
  · norm_num
  · norm_num [rSquared, rNum, rDenC, rDenA, curveN, meanQ, List.range_succ]

/-- C1 witness: same first six concentrations and same overall mean leave R²
unchanged. -/
theorem rsq_conc_beyond_six_only_via_mean_witness :
    ([0, 10, 20, 50, 100, 200, 5, 7] : List ℚ).take 6 =
      ([0, 10, 20, 50, 100, 200, 6, 6] : List ℚ).take 6 ∧
    meanQ [0, 10, 20, 50, 100, 200, 5, 7] = meanQ [0, 10, 20, 50, 100, 200, 6, 6] ∧
    rSquared [1, 2, 3, 4, 5, 6] [0, 10, 20, 50, 100, 200, 5, 7] =
      rSquared [1, 2, 3, 4, 5, 6] [0, 10, 20, 50, 100, 200, 6, 6] :=
  ⟨by norm_num, by norm_num [meanQ],
    rsq_conc_beyond_six_only_via_mean _ _ _ (by norm_num) (by norm_num [meanQ])⟩

/-- C8 (amended): perfectly linear curve data (`a_i = k*c_i + b`, `k ≠ 0`)
over a non-constant concentration curve gives R² = 1 exactly when the overall
mean of the concentration list (line 112's `mean_conc`) equals the mean of
its first 6 entries — in particular whenever the list has exactly 6 entries —
and gives R² strictly below 1 whenever the overall mean differs. -/
theorem rsq_linear_data_one (a c : List ℚ) (k b : ℚ) (h6a : 6 ≤ a.length)
    (h6c : 6 ≤ c.length) (hk : k ≠ 0)
    (hlin : ∀ i < 6, a.getD i 0 = k * c.getD i 0 + b)
    (hvar : ¬ IsConstL (c.take 6)) :
    (meanQ c = meanQ (c.take 6) → rSquared a c = 1) ∧
    (meanQ c ≠ meanQ (c.take 6) → rSquared a c < 1) := by
  have hla : (a.take 6).length = 6 := by rw [List.length_take]; omega
  have hlc : (c.take 6).length = 6 := by rw [List.length_take]; omega
  have hn : curveN a = 6 := hla
  have hc6 : ∀ i < 6, (c.take 6).getD i 0 = c.getD i 0 := fun i hi => getD_take_eq c i 6 hi
  have hgd : ∀ i < 6, (a.take 6).getD i 0 = k * c.getD i 0 + b := by
    intro i hi
    rw [getD_take_eq a i 6 hi]
    exact hlin i hi
  have hdev0 : ∑ i ∈ Finset.range 6, (c.getD i 0 - meanQ (c.take 6)) = 0 := by
    have h0 := curve_dev_sum_zero c hlc
    rw [Finset.sum_congr rfl
      (fun i hi => by rw [hc6 i (Finset.mem_range.mp hi)])] at h0
    exact h0
  have hsumc : ∑ i ∈ Finset.range 6, c.getD i 0 = 6 * meanQ (c.take 6) := by
    have h := hdev0
    rw [Finset.sum_sub_distrib, Finset.sum_const, Finset.card_range, nsmul_eq_mul] at h
    push_cast at h
    linarith
  have hsa : (a.take 6).sum = k * (6 * meanQ (c.take 6)) + 6 * b := by
    rw [← sum_getD_range_of_length (a.take 6) 6 hla,
      Finset.sum_congr rfl (fun i hi => hgd i (Finset.mem_range.mp hi)),
      Finset.sum_add_distrib, ← Finset.mul_sum, hsumc, Finset.sum_const,
      Finset.card_range, nsmul_eq_mul]
    push_cast
    ring
  have hma : meanQ (a.take 6) = k * meanQ (c.take 6) + b := by
    rw [show meanQ (a.take 6) = (a.take 6).sum / ((a.take 6).length : ℚ) from rfl,
      hsa, hla]
    push_cast
    ring
  have hdev : ∀ i < 6, (a.take 6).getD i 0 - meanQ (a.take 6) =
      k * (c.getD i 0 - meanQ (c.take 6)) := by
    intro i hi
    rw [hgd i hi, hma]
    ring
  have hnum : rNum a c =
      k * ∑ i ∈ Finset.range 6, (c.getD i 0 - meanQ (c.take 6)) ^ 2 := by
    rw [rNum_eq, hn,
      Finset.sum_congr rfl (fun i hi => by rw [hdev i (Finset.mem_range.mp hi)])]
    have expand : ∀ i ∈ Finset.range 6,
        (c.getD i 0 - meanQ c) * (k * (c.getD i 0 - meanQ (c.take 6))) =
        k * (c.getD i 0 - meanQ (c.take 6)) ^ 2 +
          (k * (meanQ (c.take 6) - meanQ c)) * (c.getD i 0 - meanQ (c.take 6)) := by
      intro i hi
      ring
    rw [Finset.sum_congr rfl expand, Finset.sum_add_distrib, ← Finset.mul_sum,
      ← Finset.mul_sum, hdev0, mul_zero, add_zero]
  have hdc : rDenC a c =
      (∑ i ∈ Finset.range 6, (c.getD i 0 - meanQ (c.take 6)) ^ 2) +
        6 * (meanQ (c.take 6) - meanQ c) ^ 2 := by
    rw [rDenC_eq, hn]
    have expand : ∀ i ∈ Finset.range 6,
        (c.getD i 0 - meanQ c) ^ 2 =
        (c.getD i 0 - meanQ (c.take 6)) ^ 2 +
          (2 * (meanQ (c.take 6) - meanQ c)) * (c.getD i 0 - meanQ (c.take 6)) +
          (meanQ (c.take 6) - meanQ c) ^ 2 := by
      intro i hi
      ring
    rw [Finset.sum_congr rfl expand, Finset.sum_add_distrib, Finset.sum_add_distrib,
      ← Finset.mul_sum, hdev0, mul_zero, add_zero, Finset.sum_const,
      Finset.card_range, nsmul_eq_mul]
    push_cast
    ring
  have hda : rDenA a =
      k ^ 2 * ∑ i ∈ Finset.range 6, (c.getD i 0 - meanQ (c.take 6)) ^ 2 := by
    rw [rDenA_eq, hn, Finset.mul_sum]
    refine Finset.sum_congr rfl (fun i hi => ?_)
    rw [hdev i (Finset.mem_range.mp hi)]
    ring
  have hS0 : 0 < ∑ i ∈ Finset.range 6, (c.getD i 0 - meanQ (c.take 6)) ^ 2 := by
    have hnn : (0:ℚ) ≤ ∑ i ∈ Finset.range 6, (c.getD i 0 - meanQ (c.take 6)) ^ 2 :=
      Finset.sum_nonneg (fun i _ => sq_nonneg _)
    rcases hnn.lt_or_eq with h | h
    · exact h
    exfalso
    apply hvar
    have hz := (Finset.sum_eq_zero_iff_of_nonneg
      (fun i _ => sq_nonneg ((c.getD i 0 - meanQ (c.take 6))))).mp h.symm
    have hall : ∀ i < 6, c.getD i 0 = meanQ (c.take 6) := by
      intro i hi
      have h1 := hz i (Finset.mem_range.mpr hi)
      have h2 := pow_eq_zero_iff (two_ne_zero) |>.mp h1
      linarith [h2]
    intro x hx y hy
    obtain ⟨ix, hix, hgx⟩ := List.mem_iff_getElem.mp hx
    obtain ⟨iy, hiy, hgy⟩ := List.mem_iff_getElem.mp hy
    have hx6 : ix < 6 := by omega
    have hy6 : iy < 6 := by omega
    have ex : x = meanQ (c.take 6) := by
      rw [← hgx, ← List.getD_eq_getElem (c.take 6) 0 hix, hc6 ix hx6]
      exact hall ix hx6
    have ey : y = meanQ (c.take 6) := by
      rw [← hgy, ← List.getD_eq_getElem (c.take 6) 0 hiy, hc6 iy hy6]
      exact hall iy hy6
    rw [ex, ey]
  have hk2 : (0:ℚ) < k ^ 2 := lt_of_le_of_ne (sq_nonneg k) (Ne.symm (pow_ne_zero 2 hk))
  constructor
  · intro hmeq
    have hd0 : meanQ (c.take 6) - meanQ c = 0 := by
      rw [hmeq]
      ring
    have hdc1 : rDenC a c = ∑ i ∈ Finset.range 6, (c.getD i 0 - meanQ (c.take 6)) ^ 2 := by
      rw [hdc, hd0]
      ring
    have hpos : rDenC a c * rDenA a > 0 := by
      rw [hdc1, hda]
      exact mul_pos hS0 (mul_pos hk2 hS0)
    unfold rSquared
    rw [if_pos hpos, hnum, hdc1, hda,
      div_eq_one_iff_eq (mul_pos hS0 (mul_pos hk2 hS0)).ne']
    ring
  · intro hmne
    have hd0 : meanQ (c.take 6) - meanQ c ≠ 0 := sub_ne_zero.mpr (Ne.symm hmne)
    have hd2 : (0:ℚ) < (meanQ (c.take 6) - meanQ c) ^ 2 :=
      lt_of_le_of_ne (sq_nonneg _) (Ne.symm (pow_ne_zero 2 hd0))
    have hdcpos : (0:ℚ) <
        (∑ i ∈ Finset.range 6, (c.getD i 0 - meanQ (c.take 6)) ^ 2) +
          6 * (meanQ (c.take 6) - meanQ c) ^ 2 := by linarith
    have hpos : rDenC a c * rDenA a > 0 := by
      rw [hdc, hda]
      exact mul_pos hdcpos (mul_pos hk2 hS0)
    unfold rSquared
    rw [if_pos hpos, hnum, hdc, hda, div_lt_one (mul_pos hdcpos (mul_pos hk2 hS0))]
    have hprod : (0:ℚ) < (meanQ (c.take 6) - meanQ c) ^ 2 *
        (k ^ 2 * (∑ i ∈ Finset.range 6, (c.getD i 0 - meanQ (c.take 6)) ^ 2)) :=
      mul_pos hd2 (mul_pos hk2 hS0)
    have key : ((k * (∑ i ∈ Finset.range 6, (c.getD i 0 - meanQ (c.take 6)) ^ 2)) ^ 2) +
        6 * ((meanQ (c.take 6) - meanQ c) ^ 2 *
          (k ^ 2 * (∑ i ∈ Finset.range 6, (c.getD i 0 - meanQ (c.take 6)) ^ 2))) =
        ((∑ i ∈ Finset.range 6, (c.getD i 0 - meanQ (c.take 6)) ^ 2) +
          6 * (meanQ (c.take 6) - meanQ c) ^ 2) *
          (k ^ 2 * (∑ i ∈ Finset.range 6, (c.getD i 0 - meanQ (c.take 6)) ^ 2)) := by
      ring
    linarith [hprod, key]

/-- C8 counterexample: absorbances exactly linear in the paired
concentrations (`k = 1`, `b = 0`), concentration curve non-constant, but a
7th concentration entry shifts `mean_conc` and R² falls short of 1. -/
theorem rsq_linear_data_counterexample :
    (∀ i < 6, ([0, 10, 20, 50, 100, 200] : List ℚ).getD i 0 =
      1 * ([0, 10, 20, 50, 100, 200, 10000] : List ℚ).getD i 0 + 0) ∧
    (1:ℚ) ≠ 0 ∧
    ¬ IsConstL (([0, 10, 20, 50, 100, 200, 10000] : List ℚ).take 6) ∧
    rSquared [0, 10, 20, 50, 100, 200] [0, 10, 20, 50, 100, 200, 10000] ≠ 1 := by
  refine ⟨?_, by norm_num, ?_, ?_⟩
  · intro i hi
    interval_cases i <;> norm_num
  · norm_num [IsConstL]
  · norm_num [rSquared, rNum, rDenC, rDenA, curveN, meanQ, List.range_succ]

/-- C8 witness: `a_i = 2*c_i + 3` over the default 6-entry concentration
list (overall mean equals the curve mean, R² = 1), and `a_i = c_i` over a
7-entry list whose extra entry shifts the overall mean (R² < 1). -/
theorem rsq_linear_data_one_witness :
    6 ≤ ([3, 23, 43, 103, 203, 403] : List ℚ).length ∧
    6 ≤ ([0, 10, 20, 50, 100, 200] : List ℚ).length ∧
    (2:ℚ) ≠ 0 ∧
    (∀ i < 6, ([3, 23, 43, 103, 203, 403] : List ℚ).getD i 0 =
      2 * ([0, 10, 20, 50, 100, 200] : List ℚ).getD i 0 + 3) ∧
    ¬ IsConstL (([0, 10, 20, 50, 100, 200] : List ℚ).take 6) ∧
    meanQ [0, 10, 20, 50, 100, 200] =
      meanQ (([0, 10, 20, 50, 100, 200] : List ℚ).take 6) ∧
    rSquared [3, 23, 43, 103, 203, 403] [0, 10, 20, 50, 100, 200] = 1 ∧
    meanQ [0, 10, 20, 50, 100, 200, 10000] ≠
      meanQ (([0, 10, 20, 50, 100, 200, 10000] : List ℚ).take 6) ∧
    rSquared [0, 10, 20, 50, 100, 200] [0, 10, 20, 50, 100, 200, 10000] < 1 :=
  ⟨by norm_num, by norm_num, by norm_num,
    by intro i hi; interval_cases i <;> norm_num,
    by norm_num [IsConstL],
    by norm_num,
    (rsq_linear_data_one _ _ 2 3 (by norm_num) (by norm_num) (by norm_num)
      (by intro i hi; interval_cases i <;> norm_num)
      (by norm_num [IsConstL])).1 (by norm_num),
    by norm_num [meanQ],
    (rsq_linear_data_one _ _ 1 0 (by norm_num) (by norm_num) (by norm_num)
      (by intro i hi; interval_cases i <;> norm_num)
      (by norm_num [IsConstL])).2 (by norm_num [meanQ])⟩

theorem cvGroupsAux : ∀ l : List ℚ,
    ((List.range ((l.length + 2) / 3)).map
      (fun k => (l.drop (3 * k)).take 3)).filter (fun g => g.length == 3) =
      chunks3 l
  | [] => by simp [chunks3]
  | [a] => by simp [chunks3, List.range_succ]
  | [a, b] => by simp [chunks3, List.range_succ]
  | a :: b :: c :: t => by
    have ih := cvGroupsAux t
    have h3 : ((a :: b :: c :: t).length + 2) / 3 = (t.length + 2) / 3 + 1 := by
      simp only [List.length_cons]
      omega
    rw [h3, List.range_succ_eq_map, List.map_cons, List.map_map]
    have hcomp : ((fun k => ((a :: b :: c :: t).drop (3 * k)).take 3) ∘ Nat.succ) =
        fun k => (t.drop (3 * k)).take 3 := by
      funext k
      simp only [Function.comp_apply]
      have h1 : 3 * Nat.succ k = 3 + 3 * k := by omega
      rw [h1, ← List.drop_drop (3 * k) 3]
      rfl
    rw [hcomp]
    have hhead : (((a :: b :: c :: t).drop (3 * 0)).take 3) = [a, b, c] := rfl
    rw [hhead, List.filter_cons_of_pos (by rfl), ih]
    rfl

theorem cvGroups_eq_chunks3 (l : List ℚ) : cvGroups l = chunks3 (l.take 18) := by
  have hlen : min l.length 18 = (l.take 18).length := by
    rw [List.length_take]
    omega
  unfold cvGroups
  rw [hlen, ← cvGroupsAux (l.take 18)]
  congr 1
  apply List.map_congr_left
  intro k hk
  have hk' : k < ((l.take 18).length + 2) / 3 := List.mem_range.mp hk
  have hlen18 : (l.take 18).length ≤ 18 := by
    rw [List.length_take]
    omega
  have h18 : 3 * k + 3 ≤ 18 := by omega
  rw [List.drop_take, List.take_take]
  congr 1
  omega

/-- C6: the CV loop uses exactly the consecutive non-overlapping triples from
the first 18 absorbance entries (offset 0), discarding a trailing partial
group; with no complete group the collected CV list is empty and the average
is 0. -/
theorem cv_replicate_grouping (l : List ℚ) :
    cvGroups l = chunks3 (l.take 18) ∧
    (cvGroups l = [] → cvList (cvGroups l) = Except.ok [] ∧ avgCvOf [] = 0) ∧
    (l.length < 3 → cvGroups l = []) := by
  refine ⟨cvGroups_eq_chunks3 l, ?_, ?_⟩
  · intro h
    rw [h]
    exact ⟨rfl, by simp [avgCvOf]⟩
  · intro h
    rw [cvGroups_eq_chunks3 l, List.take_of_length_le (by omega)]
    match l, h with
    | [], _ => rfl
    | [a], _ => rfl
    | [a, b], _ => rfl

/-- C6 witness: two readings form no complete group. -/
theorem cv_replicate_grouping_witness :
    cvGroups ([5, 7] : List ℚ) = chunks3 (([5, 7] : List ℚ).take 18) ∧
    (cvList (cvGroups ([5, 7] : List ℚ)) = Except.ok [] ∧ avgCvOf [] = 0) ∧
    cvGroups ([5, 7] : List ℚ) = [] :=
  ⟨(cv_replicate_grouping _).1,
    (cv_replicate_grouping _).2.1 (by norm_num [cvGroups, List.range_succ]),
    (cv_replicate_grouping _).2.2 (by norm_num)⟩

/-- C3: refutation of "every tool operation always returns a string".  With a
connected handle and an SDK on which both capability probes report `false`,
the `step="initialize"` branch of `read_tartrazine_absorbance` runs to the
end of the function body without a `return`: Python returns `None`, not a
string. -/
theorem read_initialize_returns_none :
    read_tartrazine_absorbance
      { available_devices_count := 1
        available_devices := [7]
        open_device := fun _ => (0, 1)
        device_slot_status_supported := fun _ => false
        get_device_slot_status := fun _ => (0, 0)
        abs96_available_wavelengths_supported := fun _ => false
        abs96_get_available_wavelengths := fun _ => (0, [450])
        abs96_initialize_single_measurement := fun _ _ => 0
        abs96_single_measure := fun _ _ => (0, []) }
      (GState.bound 1) 450 "initialize" = none := rfl

/-- C4: invoked before any connect, the tool returns the caught `NameError`
message (the module-level initialisation of `byonoy_device_handle` is
commented out), not "Please connect to Byonoy reader first"; the result is
independent of the SDK, so no device call is made. -/
theorem read_before_connect_name_error :
    (∀ (sdk : SDK) (w : Int) (s : String),
      read_tartrazine_absorbance sdk GState.unbound w s =
        some "Error: name \x27byonoy_device_handle\x27 is not defined") ∧
    some "Error: name \x27byonoy_device_handle\x27 is not defined" ≠
      some "Please connect to Byonoy reader first" :=
  ⟨fun _ _ _ => rfl, by decide⟩

theorem parseTokens_cons_some (t : List Char) (ts : List (List Char)) (q : ℚ)
    (rest : List ℚ) (h : parseFloatQ t = some q) (hr : parseTokens ts = .ok rest) :
    parseTokens (t :: ts) = .ok (q :: rest) := by
  simp only [parseTokens, h, hr]

theorem parse_scenario_default :
    parseFloatList "0,10,20,50,100,200" = .ok [0, 10, 20, 50, 100, 200] := by
  have t0 : parseFloatQ "0".data = some ((0:ℕ):ℚ) := rfl
  have t10 : parseFloatQ "10".data = some ((10:ℕ):ℚ) := rfl
  have t20 : parseFloatQ "20".data = some ((20:ℕ):ℚ) := rfl
  have t50 : parseFloatQ "50".data = some ((50:ℕ):ℚ) := rfl
  have t100 : parseFloatQ "100".data = some ((100:ℕ):ℚ) := rfl
  have t200 : parseFloatQ "200".data = some ((200:ℕ):ℚ) := rfl
  rw [show ((0:ℕ):ℚ) = 0 by norm_num] at t0
  rw [show ((10:ℕ):ℚ) = 10 by norm_num] at t10
  rw [show ((20:ℕ):ℚ) = 20 by norm_num] at t20
  rw [show ((50:ℕ):ℚ) = 50 by norm_num] at t50
  rw [show ((100:ℕ):ℚ) = 100 by norm_num] at t100
  rw [show ((200:ℕ):ℚ) = 200 by norm_num] at t200
  have hsplit : splitCommas ("0,10,20,50,100,200").data =
      ["0".data, "10".data, "20".data, "50".data, "100".data, "200".data] := rfl
  unfold parseFloatList
  rw [hsplit]
  rw [parseTokens_cons_some _ _ _ _ t0 (parseTokens_cons_some _ _ _ _ t10
    (parseTokens_cons_some _ _ _ _ t20 (parseTokens_cons_some _ _ _ _ t50
    (parseTokens_cons_some _ _ _ _ t100 (parseTokens_cons_some _ _ _ _ t200
      (show parseTokens [] = Except.ok [] from rfl))))))]

theorem parse_scenario_abs :
    parseFloatList "0.1,0.2,0.3,0.4,0.5,0.6" =
      .ok [1/10, 1/5, 3/10, 2/5, 1/2, 3/5] := by
  have a1 : parseFloatQ "0.1".data = some (((0:ℕ):ℚ) + ((1:ℕ):ℚ) / (10:ℚ) ^ (1:ℕ)) := rfl
  have a2 : parseFloatQ "0.2".data = some (((0:ℕ):ℚ) + ((2:ℕ):ℚ) / (10:ℚ) ^ (1:ℕ)) := rfl
  have a3 : parseFloatQ "0.3".data = some (((0:ℕ):ℚ) + ((3:ℕ):ℚ) / (10:ℚ) ^ (1:ℕ)) := rfl
  have a4 : parseFloatQ "0.4".data = some (((0:ℕ):ℚ) + ((4:ℕ):ℚ) / (10:ℚ) ^ (1:ℕ)) := rfl
  have a5 : parseFloatQ "0.5".data = some (((0:ℕ):ℚ) + ((5:ℕ):ℚ) / (10:ℚ) ^ (1:ℕ)) := rfl
  have a6 : parseFloatQ "0.6".data = some (((0:ℕ):ℚ) + ((6:ℕ):ℚ) / (10:ℚ) ^ (1:ℕ)) := rfl
  rw [show (((0:ℕ):ℚ) + ((1:ℕ):ℚ) / (10:ℚ) ^ (1:ℕ)) = 1/10 by norm_num] at a1
  rw [show (((0:ℕ):ℚ) + ((2:ℕ):ℚ) / (10:ℚ) ^ (1:ℕ)) = 1/5 by norm_num] at a2
  rw [show (((0:ℕ):ℚ) + ((3:ℕ):ℚ) / (10:ℚ) ^ (1:ℕ)) = 3/10 by norm_num] at a3
  rw [show (((0:ℕ):ℚ) + ((4:ℕ):ℚ) / (10:ℚ) ^ (1:ℕ)) = 2/5 by norm_num] at a4
  rw [show (((0:ℕ):ℚ) + ((5:ℕ):ℚ) / (10:ℚ) ^ (1:ℕ)) = 1/2 by norm_num] at a5
  rw [show (((0:ℕ):ℚ) + ((6:ℕ):ℚ) / (10:ℚ) ^ (1:ℕ)) = 3/5 by norm_num] at a6
  have hsplit : splitCommas ("0.1,0.2,0.3,0.4,0.5,0.6").data =
      ["0.1".data, "0.2".data, "0.3".data, "0.4".data, "0.5".data, "0.6".data] := rfl
  unfold parseFloatList
  rw [hsplit]
  rw [parseTokens_cons_some _ _ _ _ a1 (parseTokens_cons_some _ _ _ _ a2
    (parseTokens_cons_some _ _ _ _ a3 (parseTokens_cons_some _ _ _ _ a4
    (parseTokens_cons_some _ _ _ _ a5 (parseTokens_cons_some _ _ _ _ a6
      (show parseTokens [] = Except.ok [] from rfl))))))]

theorem stdevR_of_sq (g : List ℚ) (r : ℚ) (h0 : 0 ≤ r) (h : sampleVarQ g = r ^ 2) :
    stdevR g = (r : ℝ) := by
  unfold stdevR
  rw [h]
  push_cast
  exact Real.sqrt_sq (by exact_mod_cast h0)

theorem cvPercent_g1 : cvPercent [1/10, 1/5, 3/10] = 50 := by
  unfold cvPercent
  rw [stdevR_of_sq _ (1/10) (by norm_num) (by norm_num [sampleVarQ, meanQ])]
  rw [show meanQ [1/10, 1/5, 3/10] = 1/5 by norm_num [meanQ]]
  norm_num

theorem cvPercent_g2 : cvPercent [2/5, 1/2, 3/5] = 20 := by
  unfold cvPercent
  rw [stdevR_of_sq _ (1/10) (by norm_num) (by norm_num [sampleVarQ, meanQ])]
  rw [show meanQ [2/5, 1/2, 3/5] = 1/2 by norm_num [meanQ]]
  norm_num

theorem cvList_cons_ne (g : List ℚ) (gs : List (List ℚ)) (rest : List ℝ)
    (h : ¬ meanQ g = 0) (hr : cvList gs = .ok rest) :
    cvList (g :: gs) = .ok (cvPercent g :: rest) := by
  simp only [cvList, if_neg h, hr]

theorem calc_scenario :
    calcCore [1/10, 1/5, 3/10, 2/5, 1/2, 3/5] [0, 10, 20, 50, 100, 200] =
      .ok (2535/3038, 35) := by
  have hg : cvGroups [1/10, 1/5, 3/10, 2/5, 1/2, 3/5] =
      [[1/10, 1/5, 3/10], [2/5, 1/2, 3/5]] := rfl
  have hcv : cvList (cvGroups [1/10, 1/5, 3/10, 2/5, 1/2, 3/5]) = .ok [50, 20] := by
    rw [hg, cvList_cons_ne _ _ _ (by norm_num [meanQ])
      (cvList_cons_ne _ _ _ (by norm_num [meanQ])
        (show cvList [] = Except.ok [] from rfl)), cvPercent_g1, cvPercent_g2]
  unfold calcCore
  rw [if_neg (by norm_num), if_neg (by norm_num), if_neg (by norm_num [curveN])]
  simp only [hcv]
  rw [show rSquared [1/10, 1/5, 3/10, 2/5, 1/2, 3/5] [0, 10, 20, 50, 100, 200] =
      2535/3038 from by
    norm_num [rSquared, rNum, rDenC, rDenA, curveN, meanQ, List.range_succ]]
  rw [show avgCvOf [(50:ℝ), 20] = 35 from by norm_num [avgCvOf]]

/-- C2 counterexample: at the scenario input the returned average CV is 35%,
not 0 — the six curve values themselves form two complete triplicate groups
(CV 50% and 20%), so "no complete triplicate groups beyond the 6 used" is
false. -/
theorem scenario_avg_cv_not_zero :
    (calcCore [1/10, 1/5, 3/10, 2/5, 1/2, 3/5] [0, 10, 20, 50, 100, 200]).toOption.map
      Prod.snd = some 35 ∧ (35 : ℝ) ≠ 0 := by
  rw [calc_scenario]
  exact ⟨rfl, by norm_num⟩

/-- C2 (amended): scenario `absorbance_values="0.1,...,0.6"` with the default
concentrations parses as stated and yields R² = 2535/3038 < 1 together with
average CV = 35% (not 0). -/
theorem scenario_metrics :
    parseFloatList "0.1,0.2,0.3,0.4,0.5,0.6" = .ok [1/10, 1/5, 3/10, 2/5, 1/2, 3/5] ∧
    parseFloatList "0,10,20,50,100,200" = .ok [0, 10, 20, 50, 100, 200] ∧
    calcCore [1/10, 1/5, 3/10, 2/5, 1/2, 3/5] [0, 10, 20, 50, 100, 200] =
      .ok (2535/3038, 35) ∧
    (2535/3038 : ℚ) < 1 ∧ (35 : ℝ) ≠ 0 :=
  ⟨parse_scenario_abs, parse_scenario_default, calc_scenario, by norm_num, by norm_num⟩

/-- C9: every invocation of `calculate_assay_metrics` produces either the
success-formatted string or the caught-exception message with its
`"Error calculating metrics: "` prefix — no third outcome, no escaping
exception; in particular the malformed input `"a,b,c"` yields the caught
`ValueError` text. -/
theorem calc_metrics_always_message :
    (∀ a c : String,
      (∃ r cv, calculate_assay_metrics a c = successMsg r cv) ∨
      (∃ e : PyExn, calculate_assay_metrics a c =
        "Error calculating metrics: " ++ pyMsg e)) ∧
    calculate_assay_metrics "a,b,c" "0,10,20,50,100,200" =
      "Error calculating metrics: could not convert string to float: \x27a\x27" := by
  constructor
  · intro a c
    cases hpa : parseFloatList a with
    | error e =>
      refine Or.inr ⟨e, ?_⟩
      unfold calculate_assay_metrics
      simp only [hpa]
    | ok al =>
      cases hpc : parseFloatList c with
      | error e =>
        refine Or.inr ⟨e, ?_⟩
        unfold calculate_assay_metrics
        simp only [hpa, hpc]
      | ok cl =>
        cases hcc : calcCore al cl with
        | error e =>
          refine Or.inr ⟨e, ?_⟩
          unfold calculate_assay_metrics
          simp only [hpa, hpc, hcc]
        | ok p =>
          obtain ⟨r, cv⟩ := p
          refine Or.inl ⟨r, cv, ?_⟩
          unfold calculate_assay_metrics
          simp only [hpa, hpc, hcc]
  · rfl

theorem cvList_ok_of_ne (gs : List (List ℚ)) (h : ∀ g ∈ gs, ¬ meanQ g = 0) :
    cvList gs = .ok (gs.map cvPercent) := by
  induction gs with
  | nil => rfl
  | cons g gs ih =>
    rw [List.map_cons]
    exact cvList_cons_ne g gs _ (h g (List.mem_cons_self g gs))
      (ih (fun g' h' => h g' (List.mem_cons_of_mem _ h')))

/-- C10 (amended): with 1-5 parseable absorbance values, a concentration list
at least as long, and every complete triplicate group of nonzero mean, the
tool reports no error: it silently computes R² over the shorter curve and
returns the normally formatted metrics string. -/
theorem short_curve_silent_success (a c : String) (al cl : List ℚ)
    (ha : parseFloatList a = .ok al) (hc : parseFloatList c = .ok cl)
    (h1 : 1 ≤ al.length) (h5 : al.length < 6) (hlen : al.length ≤ cl.length)
    (hgm : ∀ g ∈ cvGroups al, ¬ meanQ g = 0) :
    calculate_assay_metrics a c =
      successMsg (rSquared al cl) (avgCvOf ((cvGroups al).map cvPercent)) := by
  have hta : (al.take 6).length = al.length := by
    rw [List.length_take]
    omega
  have hcore : calcCore al cl =
      .ok (rSquared al cl, avgCvOf ((cvGroups al).map cvPercent)) := by
    unfold calcCore
    rw [if_neg (by omega : ¬ cl.length = 0),
      if_neg (show ¬ (al.take 6).length = 0 by rw [hta]; omega),
      if_neg (show ¬ cl.length < curveN al by unfold curveN; rw [hta]; omega)]
    simp only [cvList_ok_of_ne _ hgm]
  unfold calculate_assay_metrics
  simp only [ha, hc, hcore]

/-- C10 counterexample: `"1,-1,0"` parses to 3 values (1 ≤ 3 < 6, default
concentration list long enough), yet the complete triplicate `[1,-1,0]` has
zero mean, the CV computation raises `ZeroDivisionError`, and the tool
reports an error message instead of a metrics string. -/
theorem short_curve_error_counterexample :
    parseFloatList "1,-1,0" = .ok [1, -1, 0] ∧
    calculate_assay_metrics "1,-1,0" "0,10,20,50,100,200" =
      "Error calculating metrics: float division by zero" := by
  have t1 : parseFloatQ "1".data = some ((1:ℕ):ℚ) := rfl
  have tm1 : parseFloatQ "-1".data = some (-((1:ℕ):ℚ)) := rfl
  have t0 : parseFloatQ "0".data = some ((0:ℕ):ℚ) := rfl
  rw [show ((1:ℕ):ℚ) = 1 by norm_num] at t1
  rw [show (-((1:ℕ):ℚ)) = -1 by norm_num] at tm1
  rw [show ((0:ℕ):ℚ) = 0 by norm_num] at t0
  have hp : parseFloatList "1,-1,0" = .ok [1, -1, 0] := by
    unfold parseFloatList
    rw [show splitCommas ("1,-1,0").data = ["1".data, "-1".data, "0".data] from rfl]
    rw [parseTokens_cons_some _ _ _ _ t1 (parseTokens_cons_some _ _ _ _ tm1
      (parseTokens_cons_some _ _ _ _ t0 (show parseTokens [] = Except.ok [] from rfl)))]
  refine ⟨hp, ?_⟩
  have hcv : cvList (cvGroups [(1:ℚ), -1, 0]) = .error .zeroDivisionError := by
    rw [show cvGroups [(1:ℚ), -1, 0] = [[1, -1, 0]] from rfl]
    simp only [cvList, if_pos (show meanQ [(1:ℚ), -1, 0] = 0 by norm_num [meanQ])]
  have hcore : calcCore [(1:ℚ), -1, 0] [0, 10, 20, 50, 100, 200] =
      .error .zeroDivisionError := by
    unfold calcCore
    rw [if_neg (by norm_num), if_neg (by norm_num), if_neg (by norm_num [curveN])]
    simp only [hcv]
  unfold calculate_assay_metrics
  simp only [hp, parse_scenario_default, hcore]
  rfl

/-- C10 witness: `"1,2,3"` (3 values, triplicate mean 2 ≠ 0) silently
succeeds with the short curve. -/
theorem short_curve_silent_success_witness :
    parseFloatList "1,2,3" = .ok [1, 2, 3] ∧
    parseFloatList "0,10,20,50,100,200" = .ok [0, 10, 20, 50, 100, 200] ∧
    1 ≤ ([1, 2, 3] : List ℚ).length ∧ ([1, 2, 3] : List ℚ).length < 6 ∧
    ([1, 2, 3] : List ℚ).length ≤ ([0, 10, 20, 50, 100, 200] : List ℚ).length ∧
    (∀ g ∈ cvGroups [1, 2, 3], ¬ meanQ g = 0) ∧
    calculate_assay_metrics "1,2,3" "0,10,20,50,100,200" =
      successMsg (rSquared [1, 2, 3] [0, 10, 20, 50, 100, 200])
        (avgCvOf ((cvGroups [1, 2, 3]).map cvPercent)) := by
  have t1 : parseFloatQ "1".data = some ((1:ℕ):ℚ) := rfl
  have t2 : parseFloatQ "2".data = some ((2:ℕ):ℚ) := rfl
  have t3 : parseFloatQ "3".data = some ((3:ℕ):ℚ) := rfl
  rw [show ((1:ℕ):ℚ) = 1 by norm_num] at t1
  rw [show ((2:ℕ):ℚ) = 2 by norm_num] at t2
  rw [show ((3:ℕ):ℚ) = 3 by norm_num] at t3
  have hp : parseFloatList "1,2,3" = .ok [1, 2, 3] := by
    unfold parseFloatList
    rw [show splitCommas ("1,2,3").data = ["1".data, "2".data, "3".data] from rfl]
    rw [parseTokens_cons_some _ _ _ _ t1 (parseTokens_cons_some _ _ _ _ t2
      (parseTokens_cons_some _ _ _ _ t3 (show parseTokens [] = Except.ok [] from rfl)))]
  have hgm : ∀ g ∈ cvGroups [(1:ℚ), 2, 3], ¬ meanQ g = 0 := by
    intro g hg
    rw [show cvGroups [(1:ℚ), 2, 3] = [[1, 2, 3]] from rfl] at hg
    rcases List.mem_singleton.mp hg with rfl
    norm_num [meanQ]
  exact ⟨hp, parse_scenario_default, by norm_num, by norm_num, by norm_num, hgm,
    short_curve_silent_success _ _ _ _ hp parse_scenario_default
      (by norm_num) (by norm_num) (by norm_num) hgm⟩
